import Mathlib

/-!
A shallow embedding of the PHI-redaction / grounding-validation / summary-alignment
core of the health-journey repository, with theorems settling claims about it.

Python regular expressions are embedded as terms of a small syntax `RE` together
with a backtracking matcher `reM` that mirrors CPython's `re` engine on the
constructs the repository's patterns use: character classes (case folded where a
pattern is compiled with re.IGNORECASE), concatenation, alternation (left
alternative tried first), greedy `?`, `{n}`, `*`, `+` and lazy `*?` over
one-character classes, and the word-boundary assertion `\b`.  Python floats are
modelled as exact rationals: every score computation in scope (the 0.1/0.2/0.25/0.3
penalties, the 0.6/0.4 similarity weights on small set cardinalities, and the 1.5
word-count factor) stays far from any value where binary-float rounding could flip
a comparison, except 0.25 and 0.5 which are exact in binary anyway.
-/

namespace HealthJourney

/-! ## Python string primitives -/

/-- Whitespace recognised by Python's regex class backslash-s and by str.strip()
    (ASCII range). -/
def pyWs (c : Char) : Bool :=
  c = ' ' || c = '\t' || c = '\n' || c = '\r' || c = '\x0b' || c = '\x0c'

/-- Word characters for the regex assertion backslash-b, over the alphabets this
    repository's patterns and inputs use: ASCII letters and digits, underscore,
    and CJK unified ideographs (the Chinese certainty markers). -/
def isWordChar (c : Char) : Bool :=
  c.isAlphanum || c = '_' || (0x4E00 ≤ c.toNat && c.toNat ≤ 0x9FFF)

/-- Splitting a character list at every character of a class, keeping empty
    pieces (the behaviour of Python str.split with an explicit separator and of
    re-based splitting on single characters).  Structural, so that concrete
    evaluation reduces inside the kernel. -/
def splitClassChars (p : Char → Bool) : List Char → List String
  | [] => [""]
  | c :: cs =>
    let rest := splitClassChars p cs
    if p c then "" :: rest
    else
      match rest with
      | [] => [String.mk [c]]
      | r :: rs => String.mk (c :: r.data) :: rs

/-- Python str.lower() (ASCII letters; the CJK characters in scope are unaffected). -/
def pyLower (s : String) : String := String.mk (s.data.map Char.toLower)

/-- Python str.strip(). -/
def pyStrip (s : String) : String :=
  ((s.data.dropWhile pyWs).reverse.dropWhile pyWs).reverse.asString

/-- Python str.split() with no separator: split on whitespace runs, dropping
    empty pieces. -/
def pySplitWs (s : String) : List String :=
  (splitClassChars pyWs s.data).filter (fun p => p ≠ "")

/-- Does the first character list start the second one? -/
def startsWithChars : List Char → List Char → Bool
  | [], _ => true
  | _ :: _, [] => false
  | a :: as, b :: bs => a = b && startsWithChars as bs

/-- Does the first character list occur inside the second one? -/
def containsChars (sub : List Char) : List Char → Bool
  | [] => startsWithChars sub []
  | b :: bs => startsWithChars sub (b :: bs) || containsChars sub bs

/-- Python substring membership, the expression sub in s. -/
def pyIn (sub s : String) : Bool := containsChars sub.data s.data

/-- Python slicing s[a:b] for 0 ≤ a ≤ b. -/
def pySlice (s : String) (a b : Nat) : String :=
  ((s.data.drop a).take (b - a)).asString

/-! ## The regex engine -/

/-- Embedded Python regular expressions (the fragment the repository's patterns
    use).  Quantified subterms are one-character classes, which is all the source
    patterns need. -/
inductive RE where
  | eps   : RE
  | cls   : (Char → Bool) → RE
  | seq   : RE → RE → RE
  | alt   : RE → RE → RE
  | opt   : RE → RE
  | rep   : (Char → Bool) → Nat → RE
  | star  : (Char → Bool) → RE
  | lstar : (Char → Bool) → RE
  | plus  : (Char → Bool) → RE
  | wb    : RE

/-- A matching continuation: absolute position, previous character, remaining text.
    The result is the end position of the first overall success, if any. -/
abbrev MCont : Type := Nat → Option Char → List Char → Option Nat

/-- Greedy star over a class: CPython consumes as many class characters as
    possible and backtracks to shorter runs on failure of the continuation. -/
def starTries (p : Char → Bool) : Nat → Option Char → List Char → MCont → Option Nat
  | pos, prev, [], k => k pos prev []
  | pos, prev, c :: cs, k =>
    if p c then
      match starTries p (pos + 1) (some c) cs k with
      | some e => some e
      | none => k pos prev (c :: cs)
    else k pos prev (c :: cs)

/-- Lazy star over a class: the continuation is tried first, the run extends one
    character at a time. -/
def lazyTries (p : Char → Bool) : Nat → Option Char → List Char → MCont → Option Nat
  | pos, prev, [], k => k pos prev []
  | pos, prev, c :: cs, k =>
    match k pos prev (c :: cs) with
    | some e => some e
    | none => if p c then lazyTries p (pos + 1) (some c) cs k else none

/-- Repetition of a class exactly n times. -/
def repTries (p : Char → Bool) : Nat → Nat → Option Char → List Char → MCont → Option Nat
  | 0, pos, prev, rest, k => k pos prev rest
  | _ + 1, _, _, [], _ => none
  | n + 1, pos, _, c :: cs, k =>
    if p c then repTries p n (pos + 1) (some c) cs k else none

def isWordOpt : Option Char → Bool
  | none => false
  | some c => isWordChar c

/-- The backtracking matcher in continuation-passing style: the first success in
    CPython's search order wins. -/
def reM : RE → Nat → Option Char → List Char → MCont → Option Nat
  | .eps, pos, prev, rest, k => k pos prev rest
  | .cls p, pos, _, rest, k =>
    match rest with
    | [] => none
    | c :: cs => if p c then k (pos + 1) (some c) cs else none
  | .seq a b, pos, prev, rest, k =>
    reM a pos prev rest fun pos2 prev2 rest2 => reM b pos2 prev2 rest2 k
  | .alt a b, pos, prev, rest, k =>
    match reM a pos prev rest k with
    | some e => some e
    | none => reM b pos prev rest k
  | .opt a, pos, prev, rest, k =>
    match reM a pos prev rest k with
    | some e => some e
    | none => k pos prev rest
  | .rep p n, pos, prev, rest, k => repTries p n pos prev rest k
  | .star p, pos, prev, rest, k => starTries p pos prev rest k
  | .lstar p, pos, prev, rest, k => lazyTries p pos prev rest k
  | .plus p, pos, _, rest, k =>
    match rest with
    | [] => none
    | c :: cs => if p c then starTries p (pos + 1) (some c) cs k else none
  | .wb, pos, prev, rest, k =>
    if isWordOpt prev != isWordOpt rest.head? then k pos prev rest else none

/-- Attempt a match at a fixed position; the result is the match's end position. -/
def tryHere (re : RE) (pos : Nat) (prev : Option Char) (rest : List Char) : Option Nat :=
  reM re pos prev rest fun e _ _ => some e

/-- Scan for a match from the current position to the end of the text. -/
def searchFrom (re : RE) : Option Char → List Char → Bool
  | prev, [] => (tryHere re 0 prev []).isSome
  | prev, c :: cs => (tryHere re 0 prev (c :: cs)).isSome || searchFrom re (some c) cs

/-- Python re.search as a Boolean: does the pattern match anywhere? -/
def reSearch (re : RE) (s : String) : Bool := searchFrom re none s.data

/-- Scanner of Python re.finditer: non-overlapping (start, end) spans, scanning
    left to right, resuming at each match's end (one character onward after an
    empty match).  The fuel starts at length + 1 and strictly bounds the number
    of scan steps, so it never runs out. -/
def findAux (re : RE) : Nat → Nat → Option Char → List Char → List (Nat × Nat)
  | 0, _, _, _ => []
  | fuel + 1, pos, prev, rest =>
    match tryHere re pos prev rest with
    | some e =>
      if pos < e then
        let consumed := rest.take (e - pos)
        let prev2 := match consumed.getLast? with
          | some c => some c
          | none => prev
        (pos, e) :: findAux re fuel e prev2 (rest.drop (e - pos))
      else
        (pos, e) ::
          (match rest with
           | [] => []
           | c :: cs => findAux re fuel (pos + 1) (some c) cs)
    | none =>
      match rest with
      | [] => []
      | c :: cs => findAux re fuel (pos + 1) (some c) cs

/-- Python re.finditer: the list of (start, end) spans. -/
def reFinditer (re : RE) (s : String) : List (Nat × Nat) :=
  findAux re (s.data.length + 1) 0 none s.data

/-- Span of the first match (what re.search's match object carries), if any. -/
def reFirstSpan (re : RE) (s : String) : Option (Nat × Nat) := (reFinditer re s).head?

/-- Text of the first match, if any. -/
def firstMatchValue (re : RE) (s : String) : Option String :=
  (reFirstSpan re s).map fun sp => pySlice s sp.1 sp.2

/-! ## Pattern construction helpers -/

/-- One-character class matching exactly the given character. -/
def chC (a : Char) : RE := .cls (fun c => c = a)

/-- One-character class matching the given character case-insensitively
    (re.IGNORECASE). -/
def chCI (a : Char) : RE := .cls (fun c => c.toLower = a.toLower)

/-- Literal string, case-sensitive. -/
def litS (s : String) : RE := s.data.foldr (fun c r => .seq (chC c) r) .eps

/-- Literal string under re.IGNORECASE. -/
def litCI (s : String) : RE := s.data.foldr (fun c r => .seq (chCI c) r) .eps

/-- Alternation of a list, the left alternative tried first as CPython does. -/
def alts : List RE → RE
  | [] => .eps
  | [r] => r
  | r :: rs => .alt r (alts rs)

/-- Concatenation of a list. -/
def seqs : List RE → RE
  | [] => .eps
  | [r] => r
  | r :: rs => .seq r (seqs rs)

/-! ## The PHI pattern library

Embedding of `RedactionTester` in src/tests/test_redaction.py.  Every pattern is
run through `re.finditer(pattern, text, re.IGNORECASE)`, so letter classes and
literals are embedded case-insensitively. -/

/-- Class of characters 0-9. -/
def isDigitC (c : Char) : Bool := c.isDigit

/-- Class A-Za-z; also what the class A-Z matches under re.IGNORECASE. -/
def isAsciiLetter (c : Char) : Bool := c.isAlpha

/-- Email local-part class: letters, digits, and the characters . _ % + - . -/
def emailLocalC (c : Char) : Bool :=
  c.isAlpha || c.isDigit || c = '.' || c = '_' || c = '%' || c = '+' || c = '-'

/-- Email domain class: letters, digits, dot, hyphen. -/
def emailDomainC (c : Char) : Bool := c.isAlpha || c.isDigit || c = '.' || c = '-'

/-- Email TLD class as written in the source, A-Z, the literal bar, a-z. -/
def emailTldC (c : Char) : Bool := c.isAlpha || c = '|'

/-- Phone separator class: hyphen, dot, whitespace. -/
def phoneSepC (c : Char) : Bool := c = '-' || c = '.' || pyWs c

/-- Credit-card separator class: hyphen, whitespace. -/
def ccSepC (c : Char) : Bool := c = '-' || pyWs c

/-- Address body class: letters, digits, whitespace, comma, dot, hyphen. -/
def addrBodyC (c : Char) : Bool :=
  c.isAlpha || c.isDigit || pyWs c || c = ',' || c = '.' || c = '-'

/-- Class of letters and whitespace. -/
def alphaWsC (c : Char) : Bool := c.isAlpha || pyWs c

/-- Source pattern "email":
    a word boundary, one or more local-part characters, an at sign, one or more
    domain characters, a dot, two or more TLD characters, a word boundary. -/
def emailRE : RE := seqs [.wb, .plus emailLocalC, chC '@', .plus emailDomainC,
  chC '.', .rep emailTldC 2, .star emailTldC, .wb]

/-- Source pattern "phone":
    an optional group of an optional plus, the digit 1 and an optional separator;
    an optional opening parenthesis, three digits, an optional closing
    parenthesis, an optional separator, three digits, an optional separator,
    four digits.  The pattern has no word-boundary anchors. -/
def phoneRE : RE := seqs [
  .opt (seqs [.opt (chC '+'), chC '1', .opt (.cls phoneSepC)]),
  .opt (chC '('), .rep isDigitC 3, .opt (chC ')'), .opt (.cls phoneSepC),
  .rep isDigitC 3, .opt (.cls phoneSepC), .rep isDigitC 4]

/-- Source pattern "ssn": word boundary, three digits, optional hyphen, two
    digits, optional hyphen, four digits, word boundary. -/
def ssnRE : RE := seqs [.wb, .rep isDigitC 3, .opt (chC '-'), .rep isDigitC 2,
  .opt (chC '-'), .rep isDigitC 4, .wb]

/-- Source pattern "credit_card": word boundary, four groups of four digits with
    optional hyphen/space separators, word boundary. -/
def ccRE : RE := seqs [.wb, .rep isDigitC 4, .opt (.cls ccSepC), .rep isDigitC 4,
  .opt (.cls ccSepC), .rep isDigitC 4, .opt (.cls ccSepC), .rep isDigitC 4, .wb]

/-- Class of digits 1-9. -/
def digit19C (c : Char) : Bool := '1' ≤ c && c ≤ '9'

/-- Source pattern "date_of_birth" (MM/DD/YYYY with / or - separators):
    month 0?1-9 or 1 0-2, day 0?1-9 or 1-2 0-9 or 3 0-1, year 19xx or 20xx,
    all between word boundaries; alternatives are tried left to right. -/
def dobRE : RE := seqs [.wb,
  .alt (seqs [.opt (chC '0'), .cls digit19C])
       (seqs [chC '1', .cls (fun c => '0' ≤ c && c ≤ '2')]),
  .cls (fun c => c = '/' || c = '-'),
  alts [seqs [.opt (chC '0'), .cls digit19C],
        seqs [.cls (fun c => c = '1' || c = '2'), .cls isDigitC],
        seqs [chC '3', .cls (fun c => c = '0' || c = '1')]],
  .cls (fun c => c = '/' || c = '-'),
  .alt (litS "19") (litS "20"),
  .rep isDigitC 2, .wb]

/-- Source pattern "patient_id": word boundary, two letters (the class A-Z
    matches either case under re.IGNORECASE), six digits, word boundary. -/
def patientIdRE : RE := seqs [.wb, .rep isAsciiLetter 2, .rep isDigitC 6, .wb]

/-- Street-type alternation of the address pattern, tried left to right,
    case-insensitively. -/
def streetTypeRE : RE :=
  alts (["Street", "St", "Avenue", "Ave", "Road", "Rd", "Drive", "Dr",
         "Lane", "Ln", "Boulevard", "Blvd"].map litCI)

/-- Source pattern "address": word boundary, digits, whitespace, one or more
    address-body characters, a street type, then three optional groups
    (comma-separated town of letters and whitespace, comma-separated two-letter
    state, whitespace-separated five-digit ZIP with optional plus-four), and a
    word boundary. -/
def addressRE : RE := seqs [.wb, .plus isDigitC, .plus pyWs, .plus addrBodyC,
  streetTypeRE,
  .opt (seqs [.star pyWs, chC ',', .star pyWs, .plus alphaWsC]),
  .opt (seqs [.star pyWs, chC ',', .star pyWs, .rep isAsciiLetter 2]),
  .opt (seqs [.plus pyWs, .rep isDigitC 5, .opt (seqs [chC '-', .rep isDigitC 4])]),
  .wb]

/-- Source pattern "zip_code": word boundary, five digits, optional hyphen and
    four digits, word boundary. -/
def zipRE : RE := seqs [.wb, .rep isDigitC 5, .opt (seqs [chC '-', .rep isDigitC 4]), .wb]

/-- One detected PHI span: the dict `RedactionTester.detect_phi` appends (the
    `description` entry, a constant per pattern, is omitted).  The field `stop`
    is Python's match.end() — `end` is a Lean keyword. -/
structure PHIMatch where
  type : String
  value : String
  start : Nat
  stop : Nat
deriving Repr, DecidableEq

/-- The pattern list `RedactionTester.phi_patterns`, in source order. -/
def phi_patterns : List (String × RE) :=
  [("email", emailRE), ("phone", phoneRE), ("ssn", ssnRE), ("credit_card", ccRE),
   ("date_of_birth", dobRE), ("patient_id", patientIdRE), ("address", addressRE),
   ("zip_code", zipRE)]

/-- The three false-positive patterns of `is_valid_address` — the word address,
    optional whitespace, a colon, optional whitespace, digits, optionally
    followed by whitespace and the word days / if — searched with IGNORECASE. -/
def addressFalsePositiveREs : List RE :=
  [seqs [litCI "address", .star pyWs, chC ':', .star pyWs, .plus isDigitC],
   seqs [litCI "address", .star pyWs, chC ':', .star pyWs, .plus isDigitC,
         .plus pyWs, litCI "days"],
   seqs [litCI "address", .star pyWs, chC ':', .star pyWs, .plus isDigitC,
         .plus pyWs, litCI "if"]]

/-- The address-indicator substrings checked case-sensitively by
    `is_valid_address`. -/
def address_indicators : List String :=
  ["Street", "St", "Avenue", "Ave", "Road", "Rd", "Drive", "Dr",
   "Lane", "Ln", "Boulevard", "Blvd"]

/-- RedactionTester.is_valid_address: false when a false-positive pattern
    matches anywhere in the candidate text, otherwise true exactly when a
    street-type indicator occurs (case-sensitively) in it. -/
def is_valid_address (text : String) : Bool :=
  let has_street_type := address_indicators.any fun ind => pyIn ind text
  if addressFalsePositiveREs.any (fun re => reSearch re text) then false
  else has_street_type

/-- RedactionTester.detect_phi (src/tests/test_redaction.py): every pattern is
    run over the whole text independently and the matches are appended in
    pattern order; an address match whose text fails `is_valid_address` is
    skipped.  (PHIRedactionTester.detect_phi in src/test_redaction.py is the
    same procedure without the address filter and with a shorter address
    pattern.) -/
def detect_phi (text : String) : List PHIMatch :=
  phi_patterns.flatMap fun p =>
    (reFinditer p.2 text).filterMap fun sp =>
      let v := pySlice text sp.1 sp.2
      if p.1 = "address" && !is_valid_address v then none
      else some { type := p.1, value := v, start := sp.1, stop := sp.2 }

/-- Detection as Python actually calls it: `re.finditer` raises TypeError when
    `text` is None, so the call is modelled in `Except`; a None argument is an
    exception, not a result. -/
def detect_phi_checked : Option String → Except String (List PHIMatch)
  | none => .error "TypeError: expected string or bytes-like object"
  | some s => .ok (detect_phi s)

/-! ## The Redactor

Modelled from the spec: the repository contains no Redactor implementation under
src/ — the redaction tests exercise it only through the platform's HTTP API — so
the Redactor of spec section 4.2 is modelled from the spec's words: all matches
of the Pattern Library (section 4.1, `detect_phi` above) are collected; when two
matches from different categories physically overlap, the match of the
lower-priority category in the fixed order SSN > CreditCard > Phone >
DateOfBirth > Email > PatientId > ZipCode > Address is dropped entirely
(PersonName, last in the spec's order, has no recognizer in the pattern
library); every surviving span is then replaced in one index-stable pass by its
category's canonical placeholder token (spec section 6 fixes the bracketed
shape, e.g. [REDACTED_EMAIL]). -/

/-- Category priority order of spec section 4.1, most specific first. -/
def phi_priority : List String :=
  ["ssn", "credit_card", "phone", "date_of_birth", "email", "patient_id",
   "zip_code", "address"]

/-- Rank in the priority order (smaller = higher priority). -/
def priorityRank (t : String) : Nat := ((phi_priority.indexOf? t).getD 8)

/-- Canonical placeholder token per category (spec sections 3 and 6). -/
def placeholder (t : String) : String :=
  if t = "email" then "[REDACTED_EMAIL]"
  else if t = "phone" then "[REDACTED_PHONE]"
  else if t = "ssn" then "[REDACTED_SSN]"
  else if t = "credit_card" then "[REDACTED_CREDIT_CARD]"
  else if t = "date_of_birth" then "[REDACTED_DATE_OF_BIRTH]"
  else if t = "patient_id" then "[REDACTED_PATIENT_ID]"
  else if t = "address" then "[REDACTED_ADDRESS]"
  else "[REDACTED_ZIP_CODE]"

/-- Do two spans physically overlap? -/
def overlapsM (a b : PHIMatch) : Bool := a.start < b.stop && b.start < a.stop

/-- Stable insertion by priority rank. -/
def insertByRank (m : PHIMatch) : List PHIMatch → List PHIMatch
  | [] => [m]
  | x :: xs =>
    if priorityRank m.type ≤ priorityRank x.type then m :: x :: xs
    else x :: insertByRank m xs

/-- Stable sort by priority rank. -/
def sortByRank : List PHIMatch → List PHIMatch
  | [] => []
  | m :: ms => insertByRank m (sortByRank ms)

/-- Stable insertion by start offset. -/
def insertByStart (m : PHIMatch) : List PHIMatch → List PHIMatch
  | [] => [m]
  | x :: xs =>
    if m.start ≤ x.start then m :: x :: xs
    else x :: insertByStart m xs

/-- Stable sort by start offset. -/
def sortByStart : List PHIMatch → List PHIMatch
  | [] => []
  | m :: ms => insertByStart m (sortByStart ms)

/-- Walk the priority-sorted matches, dropping any match overlapping an
    already-kept (higher-priority) one. -/
def keepNonOverlapping (kept : List PHIMatch) : List PHIMatch → List PHIMatch
  | [] => kept
  | m :: ms =>
    if kept.any (fun x => overlapsM x m) then keepNonOverlapping kept ms
    else keepNonOverlapping (kept ++ [m]) ms

/-- RedactionResult of spec section 3. -/
structure RedactionResult where
  originalLength : Nat
  redactedText : String
  /-- The spec's field `matches` (a reserved word here). -/
  phiMatches : List PHIMatch
  categoryCounts : List (String × Nat)
deriving Repr, DecidableEq

/-- Replace every span of `ms` (sorted by start, pairwise non-overlapping) in the
    suffix of the text beginning at offset `pos` by its placeholder. -/
def replaceSpans : List Char → Nat → List PHIMatch → List Char
  | cs, _, [] => cs
  | cs, pos, m :: ms =>
    cs.take (m.start - pos) ++ (placeholder m.type).data
      ++ replaceSpans (cs.drop (m.stop - pos)) m.stop ms

/-- Modelled from the spec (section 4.2, see the section comment above): detect,
    resolve overlaps by category priority, replace every surviving span by its
    category placeholder in one index-stable pass. -/
def redact (text : String) : RedactionResult :=
  let kept := sortByStart (keepNonOverlapping [] (sortByRank (detect_phi text)))
  { originalLength := text.data.length
    redactedText := (replaceSpans text.data 0 kept).asString
    phiMatches := kept
    categoryCounts := phi_priority.map fun t =>
      (t, (kept.filter (fun m => m.type = t)).length) }

/-! ## Grounding validation

Embeddings of DirectFunctionTester (src/test_direct_functions.py) and
RealGroundingTester (src/tests/test_grounding.py). -/

/-- GroundingResult of both testers.  The dataclass field `section` is a Lean
    keyword, hence `sectionName`. -/
structure GroundingResult where
  sectionName : String
  total_bullets : Nat
  grounded_bullets : Nat
  missing_anchors : List String
  is_valid : Bool
deriving Repr, DecidableEq

/-- DirectFunctionTester.anchor_pattern, a square-bracketed anchor: an opening
    square bracket, an optional capital S, one or more digits, a closing square
    bracket (searched case-sensitively). -/
def anchorDirectRE : RE := seqs [chC '[', .opt (chC 'S'), .plus isDigitC, chC ']']

/-- RealGroundingTester.anchor_pattern: either an opening square bracket or an
    opening parenthesis, an optional capital S, one or more digits, then either
    a closing square bracket or a closing parenthesis — the brackets pair
    independently. -/
def anchorRealRE : RE :=
  seqs [.cls (fun c => c = '[' || c = '('), .opt (chC 'S'), .plus isDigitC,
        .cls (fun c => c = ']' || c = ')')]

/-- DirectFunctionTester.has_source_anchor. -/
def has_source_anchor_direct (text : String) : Bool := reSearch anchorDirectRE text

/-- RealGroundingTester.has_source_anchor. -/
def has_source_anchor_real (text : String) : Bool := reSearch anchorRealRE text

/-- Group 1 of the bullet patterns' common tail (one or more whitespace
    characters, then one or more arbitrary characters up to the end of the
    line): the remainder after the maximal whitespace run; when that remainder
    is empty, backtracking leaves the run's final whitespace character as the
    group; a lone trailing whitespace character yields no match. -/
def groupAfterWs (rest : List Char) : Option (List Char) :=
  match rest with
  | [] => none
  | c :: _ =>
    if pyWs c then
      let rem := rest.dropWhile pyWs
      if rem.isEmpty then
        if rest.length ≥ 2 then some (rest.drop (rest.length - 1)) else none
      else some rem
    else none

/-- Bullet pattern 1 applied with re.match to a line: optional leading
    whitespace, one of - • *, whitespace, the captured rest. -/
def bulletStd (l : List Char) : Option (List Char) :=
  match l.dropWhile pyWs with
  | c :: rest => if c = '-' || c = '•' || c = '*' then groupAfterWs rest else none
  | [] => none

/-- Bullet pattern 2: optional leading whitespace, a (maximal, nonempty) digit
    run, a dot, whitespace, the captured rest. -/
def bulletNum (l : List Char) : Option (List Char) :=
  let l2 := l.dropWhile pyWs
  let ds := l2.takeWhile isDigitC
  if ds.isEmpty then none
  else match l2.drop ds.length with
    | '.' :: rest => groupAfterWs rest
    | _ => none

/-- Bullet pattern 3: optional leading whitespace, one lower-case letter
    (case-sensitive), a dot, whitespace, the captured rest. -/
def bulletLet (l : List Char) : Option (List Char) :=
  match l.dropWhile pyWs with
  | c :: '.' :: rest => if 'a' ≤ c && c ≤ 'z' then groupAfterWs rest else none
  | _ => none

/-- extract_bullets (textually identical in test_direct_functions.py and
    tests/test_grounding.py): split on newlines, strip each line, skip empty
    lines, try the three bullet patterns in order and keep the first group,
    stripped. -/
def extract_bullets (text : String) : List String :=
  (splitClassChars (fun c => c = '\n') text.data).flatMap fun line =>
    let line := pyStrip line
    if line = "" then []
    else
      match bulletStd line.data with
      | some g => [pyStrip g.asString]
      | none =>
        match bulletNum line.data with
        | some g => [pyStrip g.asString]
        | none =>
          match bulletLet line.data with
          | some g => [pyStrip g.asString]
          | none => []

/-- DirectFunctionTester.validate_section: every extracted bullet is counted and
    must individually carry a square-bracket anchor; the section is valid when
    no bullet lacks one. -/
def validate_section_direct (section_name content : String) : GroundingResult :=
  let bullets := extract_bullets content
  let grounded := (bullets.filter fun b => has_source_anchor_direct b).length
  let missing := bullets.filter fun b => !has_source_anchor_direct b
  { sectionName := section_name
    total_bullets := bullets.length
    grounded_bullets := grounded
    missing_anchors := missing
    is_valid := missing.isEmpty }

/-- RealGroundingTester.validate_section (tests/test_grounding.py): every field
    is treated as one prose unit — total_bullets is the constant 1 and the field
    is valid exactly when it contains an anchor anywhere. -/
def validate_section_real (section_name content : String) : GroundingResult :=
  let has_anchors := has_source_anchor_real content
  { sectionName := section_name
    total_bullets := 1
    grounded_bullets := if has_anchors then 1 else 0
    missing_anchors := if has_anchors then [] else [pySlice content 0 50 ++ "..."]
    is_valid := has_anchors }

/-! ## Certainty normalization and diagnosis alignment

Embedding of AdvancedCertaintyNormalizer and the diagnosis check of
UltraEnhancedSummaryTester (src/test_summary_enhanced.py). -/

inductive CertaintyLevel where
  | confirmed
  | likely
  | possible
  | unlikely
deriving Repr, DecidableEq

/-- The `.value` string of each CertaintyLevel enum member. -/
def certaintyValue : CertaintyLevel → String
  | .confirmed => "confirmed"
  | .likely => "likely"
  | .possible => "possible"
  | .unlikely => "unlikely"

/-- A word-boundary-delimited alternation of literal words, as each certainty
    pattern is written (searched case-sensitively on lower-cased text). -/
def wordAltRE (ws : List String) : RE := seqs [.wb, alts (ws.map litS), .wb]

/-- The clinician-facing certainty patterns, one per level. -/
def clinicianPatternRE : CertaintyLevel → RE
  | .confirmed => wordAltRE ["confirmed", "definitive", "established", "diagnosed"]
  | .likely => wordAltRE ["likely", "probable", "suspected", "presumed"]
  | .possible => wordAltRE ["possible", "potential", "may be", "could be"]
  | .unlikely => wordAltRE ["unlikely", "doubtful", "improbable"]

/-- The patient-facing confirmed-tier pattern (Chinese terms). -/
def patientConfirmedRE : RE := wordAltRE ["確診", "確定", "已確認", "診斷為"]

/-- AdvancedCertaintyNormalizer.detect_certainty_level: the first level, in the
    dict's insertion order confirmed, likely, possible, unlikely, whose
    clinician pattern matches the lower-cased text; possible when none does. -/
def detect_certainty_level (text : String) : CertaintyLevel :=
  let tl := pyLower text
  if reSearch (clinicianPatternRE .confirmed) tl then .confirmed
  else if reSearch (clinicianPatternRE .likely) tl then .likely
  else if reSearch (clinicianPatternRE .possible) tl then .possible
  else if reSearch (clinicianPatternRE .unlikely) tl then .unlikely
  else .possible

/-- AdvancedCertaintyNormalizer.validate_certainty_alignment, returning
    (len(issues) == 0, issues).  The first check searches the raw (not
    lower-cased) patient text with the Chinese confirmed-tier pattern; the
    second fires only for the pair possible / confirmed. -/
def validate_certainty_alignment (clinician_text patient_text : String) :
    Bool × List String :=
  let cl := detect_certainty_level clinician_text
  let pl := detect_certainty_level patient_text
  let issues :=
    (if cl = CertaintyLevel.confirmed then []
     else if reSearch patientConfirmedRE patient_text then
       ["Patient uses confirmed language when clinician certainty is " ++
         certaintyValue cl]
     else [])
    ++
    (if cl = CertaintyLevel.possible ∧ pl = CertaintyLevel.confirmed then
       ["Patient uses confirmed language when clinician only suggests possibility"]
     else [])
  (issues.isEmpty, issues)

/-- The summary fields the alignment checks read through summary.get(field, "").
    Absent fields default to the empty string, as in the source. -/
structure ClinicianSummary where
  assessment : String := ""
  medications : String := ""
  plan : String := ""
  followUp : String := ""
deriving Repr

/-- Patient-summary fields read by the alignment checks. -/
structure PatientSummary where
  diagnosis : String := ""
  medications : String := ""
  instructions : String := ""
  followUp : String := ""
deriving Repr

/-- ValidationResult with Python's float score as an exact rational. -/
structure ValidationResult where
  test_name : String
  passed : Bool
  score : ℚ
  issues : List String
deriving Repr, DecidableEq

/-- Score shape shared by the medication, follow-up and diagnosis checks:
    1.0 when the issue list is empty, otherwise max(0.0, 1.0 - count * penalty). -/
def penaltyScore (issues : List String) (penalty : ℚ) : ℚ :=
  if issues.isEmpty then 1 else max 0 (1 - issues.length * penalty)

/-- The diagnosis-term vocabulary of extract_diagnosis_terms (a Python set
    literal; listed here in its written order). -/
def diagnosis_terms : List String :=
  ["headache", "migraine", "tension", "fever", "infection", "viral", "bacterial",
   "hypertension", "diabetes", "pneumonia", "bronchitis", "asthma", "allergy"]

/-- extract_diagnosis_terms: the vocabulary terms occurring as substrings of the
    lower-cased text.  The source builds a Python set; only membership and
    emptiness of differences are consumed, so a list in vocabulary order is an
    equivalent model. -/
def extract_diagnosis_terms (text : String) : List String :=
  diagnosis_terms.filter fun t => pyIn t (pyLower text)

/-- The key terms of check_terminology_consistency. -/
def key_terms : List String := ["headache", "fever", "pain", "symptoms"]

/-- check_terminology_consistency: false when some key term occurs in the
    lower-cased clinician text but not in the lower-cased patient text. -/
def check_terminology_consistency (c p : String) : Bool :=
  key_terms.all fun t => !(pyIn t (pyLower c)) || pyIn t (pyLower p)

/-- UltraEnhancedSummaryTester.test_diagnosis_alignment_ultra_strict.  The issue
    message that interpolates a Python set's repr is modelled by a fixed prefix:
    its exact rendering depends on unspecified set iteration order, and only the
    issue count and presence are consumed anywhere. -/
def test_diagnosis_alignment_ultra_strict (c : ClinicianSummary) (p : PatientSummary) :
    ValidationResult :=
  let certIssues := (validate_certainty_alignment c.assessment p.diagnosis).2
  let extra := (extract_diagnosis_terms p.diagnosis).filter
    fun t => !(extract_diagnosis_terms c.assessment).contains t
  let issues := certIssues
    ++ (if extra.isEmpty then [] else ["Patient summary contains extra diagnoses"])
    ++ (if check_terminology_consistency c.assessment p.diagnosis then []
        else ["Diagnosis terminology not consistent between versions"])
  { test_name := "diagnosis_alignment_ultra_strict"
    passed := issues.isEmpty
    score := penaltyScore issues (1/4)
    issues := issues }

/-! ## Medication normalization and alignment

Embedding of AdvancedMedicationNormalizer and the medication check of
UltraEnhancedSummaryTester. -/

/-- One extracted medication record (the dict parse_medication_info builds). -/
structure MedInfo where
  generic : String
  dose : String
  freq : String
  route : String
  original_text : String
deriving Repr, DecidableEq

/-- The medication_synonyms table, in insertion order. -/
def medication_synonyms : List (String × List String) :=
  [("acetaminophen", ["tylenol", "paracetamol", "panadol", "acetaminophen"]),
   ("ibuprofen", ["advil", "motrin", "brufen", "ibuprofen"]),
   ("aspirin", ["asa", "acetylsalicylic acid", "aspirin"]),
   ("amoxicillin", ["amoxil", "trimox", "amoxicillin"])]

/-- The frequency_mapping table (medical abbreviation to patient-readable
    rendering), in insertion order. -/
def frequency_mapping : List (String × String) :=
  [("q6h", "每6小時一次"), ("q8h", "每8小時一次"), ("q12h", "每12小時一次"),
   ("qd", "每日一次"), ("bid", "每日兩次"), ("tid", "每日三次"), ("qid", "每日四次"),
   ("prn", "需要時服用"), ("q4h", "每4小時一次"), ("q2h", "每2小時一次")]

/-- AdvancedMedicationNormalizer.normalize_medication_name: lower-case and strip,
    then the first generic whose brand list contains the name or equals it;
    otherwise the lowered name itself. -/
def normalize_medication_name (name : String) : String :=
  let nl := pyStrip (pyLower name)
  match medication_synonyms.find? (fun g => g.2.contains nl || g.1 == nl) with
  | some g => g.1
  | none => nl

/-- AdvancedMedicationNormalizer.normalize_frequency: the table entry for the
    lowered, stripped key, or the input unchanged. -/
def normalize_frequency (freq : String) : String :=
  match frequency_mapping.find? (fun e => e.1 == pyStrip (pyLower freq)) with
  | some e => e.2
  | none => freq

/-- The name alternations of the four med_patterns, in pattern and alternation
    order. -/
def med_pattern_names : List (List String) :=
  [["acetaminophen", "tylenol", "paracetamol"],
   ["ibuprofen", "advil", "motrin"],
   ["aspirin", "asa"],
   ["amoxicillin", "amoxil"]]

/-- The first name of the alternation matching at the head of the text with word
    boundaries on both sides (every name begins and ends with a letter, so the
    boundaries reduce to non-word neighbours). -/
def medNameAt (names : List String) (prev : Option Char) (l : List Char) :
    Option (List Char) :=
  if isWordOpt prev then none
  else
    names.findSome? fun n =>
      if l.take n.data.length = n.data ∧ !isWordOpt (l.drop n.data.length).head? then
        some n.data
      else none

/-- The lazy extension after a matched name in a med pattern — zero or more
    non-dot characters, as few as possible, until the next character is
    whitespace (consumed by the full match but not the group) or the end of the
    string; a dot blocks the extension and fails the match.  Returns the
    group extension, the consumed separator if any, and the remainder. -/
def medLazyExt : List Char → Option (List Char × Option Char × List Char)
  | [] => some ([], none, [])
  | c :: cs =>
    if pyWs c then some ([], some c, cs)
    else if c = '.' then none
    else
      match medLazyExt cs with
      | some (g, sep, rest) => some (c :: g, sep, rest)
      | none => none

/-- Scan of re.findall for one med pattern: the captured group of every match,
    left to right, resuming after each full match. -/
def medFindAux (names : List String) : Nat → Option Char → List Char → List String
  | 0, _, _ => []
  | _ + 1, _, [] => []
  | fuel + 1, prev, c :: cs =>
    match medNameAt names prev (c :: cs) with
    | some nd =>
      match medLazyExt ((c :: cs).drop nd.length) with
      | some (g, sep, rest) =>
        (nd ++ g).asString :: medFindAux names fuel sep rest
      | none => medFindAux names fuel (some c) cs
    | none => medFindAux names fuel (some c) cs

/-- re.findall of one med pattern over a text. -/
def medFindall (names : List String) (text : String) : List String :=
  medFindAux names (text.data.length + 1) none text.data

/-- Dose pattern of parse_medication_info: digits, an optional decimal part,
    optional whitespace, one of the units mg g ml mcg (alternatives in source
    order). -/
def doseRE : RE := seqs [.plus isDigitC, .opt (seqs [chC '.', .plus isDigitC]),
  .star pyWs, alts [litS "mg", litS "g", litS "ml", litS "mcg"]]

/-- Frequency pattern: q digits h, or one of qd bid tid qid prn. -/
def freqRE : RE := alts [seqs [chC 'q', .plus isDigitC, chC 'h'],
  litS "qd", litS "bid", litS "tid", litS "qid", litS "prn"]

/-- Route pattern: one of po iv im topical sublingual between word boundaries. -/
def routeRE : RE := seqs [.wb,
  alts [litS "po", litS "iv", litS "im", litS "topical", litS "sublingual"], .wb]

/-- AdvancedMedicationNormalizer.parse_medication_info (the group of each inner
    search is the whole match). -/
def parse_medication_info (text : String) : MedInfo :=
  { generic := normalize_medication_name (((pySplitWs text).head?).getD "")
    dose := (firstMatchValue doseRE text).getD ""
    freq := (firstMatchValue freqRE text).getD ""
    route := (firstMatchValue routeRE text).getD "po"
    original_text := pyStrip text }

/-- AdvancedMedicationNormalizer.extract_medications_detailed: findall of each of
    the four patterns over the lower-cased text, each group parsed. -/
def extract_medications_detailed (text : String) : List MedInfo :=
  med_pattern_names.flatMap fun names =>
    (medFindall names (pyLower text)).map parse_medication_info

/-- The Python set of generic names of a medication list (membership-only use). -/
def genericsOf (ms : List MedInfo) : Finset String := (ms.map (·.generic)).toFinset

/-- Check 3 of the medication test: one issue per zipped pair whose doses are
    both present and different (Python's enumerate starts the label at 1). -/
def doseIssues (i : Nat) : List (MedInfo × MedInfo) → List String
  | [] => []
  | (cm, pm) :: rest =>
    (if cm.dose ≠ "" ∧ pm.dose ≠ "" ∧ cm.dose ≠ pm.dose then
       ["Medication " ++ toString i ++ " dose differs: " ++ cm.dose ++ " vs " ++ pm.dose]
     else [])
    ++ doseIssues (i + 1) rest

/-- Check 4: one issue per patient medication whose frequency is nonempty but
    normalizes to an empty (falsy) string — unreachable with the actual table,
    and kept for faithfulness. -/
def freqIssues (i : Nat) : List MedInfo → List String
  | [] => []
  | pm :: rest =>
    (if pm.freq ≠ "" ∧ normalize_frequency pm.freq = "" then
       ["Patient medication " ++ toString i ++ " frequency not properly normalized: "
         ++ pm.freq]
     else [])
    ++ freqIssues (i + 1) rest

/-- UltraEnhancedSummaryTester.test_medication_alignment_ultra_strict.  Issue
    messages that interpolate Python set reprs are modelled by fixed prefixes
    (set iteration order is unspecified; only issue counts are consumed). -/
def test_medication_alignment_ultra_strict (c : ClinicianSummary) (p : PatientSummary) :
    ValidationResult :=
  let cMeds := extract_medications_detailed c.medications
  let pMeds := extract_medications_detailed p.medications
  let cG := genericsOf cMeds
  let pG := genericsOf pMeds
  let issues :=
    (if cMeds.length ≠ pMeds.length then
       ["Different number of medications: " ++ toString cMeds.length ++ " vs "
         ++ toString pMeds.length]
     else [])
    ++ (if cG ≠ pG then ["Different medication generics"] else [])
    ++ doseIssues 1 (cMeds.zip pMeds)
    ++ freqIssues 1 pMeds
    ++ (if (pG \ cG) = ∅ then [] else ["Patient summary contains extra medications"])
  { test_name := "medication_alignment_ultra_strict"
    passed := issues.isEmpty
    score := penaltyScore issues (1/5)
    issues := issues }

/-! ## Follow-up alignment -/

/-- Class matching hyphen or en dash, the source's timing separator class. -/
def dashC (c : Char) : Bool := c = '-' || c = '–'

/-- Class of every character except a dot. -/
def notDotC (c : Char) : Bool := c ≠ '.'

/-- The timing_patterns of extract_timing_strict, in order: a dashed day range,
    weeks, days, and the same with a leading in (searched case-sensitively on
    lower-cased text; the s of days and weeks is optional). -/
def timing_patterns : List RE :=
  [seqs [.plus isDigitC, .cls dashC, .plus isDigitC, .star pyWs, litS "day", .opt (chC 's')],
   seqs [.plus isDigitC, .star pyWs, litS "week", .opt (chC 's')],
   seqs [.plus isDigitC, .star pyWs, litS "day", .opt (chC 's')],
   seqs [litS "in", .plus pyWs, .plus isDigitC, .cls dashC, .plus isDigitC,
         .star pyWs, litS "day", .opt (chC 's')],
   seqs [litS "in", .plus pyWs, .plus isDigitC, .star pyWs, litS "week", .opt (chC 's')]]

/-- extract_timing_strict: the first pattern, in list order, with a match; its
    group (the whole match), stripped.  Empty string when none matches. -/
def extract_timing_strict (text : String) : String :=
  match timing_patterns.findSome? (fun re => firstMatchValue re text) with
  | some v => pyStrip v
  | none => ""

/-- The condition_patterns of extract_conditions_strict: one of the words if,
    when, unless, provided, whitespace, then everything up to a dot. -/
def condition_patterns : List RE :=
  [seqs [litS "if", .plus pyWs, .star notDotC],
   seqs [litS "when", .plus pyWs, .star notDotC],
   seqs [litS "unless", .plus pyWs, .star notDotC],
   seqs [litS "provided", .plus pyWs, .star notDotC]]

/-- extract_conditions_strict: first matching pattern's match, stripped. -/
def extract_conditions_strict (text : String) : String :=
  match condition_patterns.findSome? (fun re => firstMatchValue re text) with
  | some v => pyStrip v
  | none => ""

/-- UltraEnhancedSummaryTester.test_followup_alignment_ultra_strict.  The Python
    comparison len(patient words) > len(clinician words) * 1.5 is exact for the
    small integer lengths in scope and is written 2p > 3c. -/
def test_followup_alignment_ultra_strict (c : ClinicianSummary) (p : PatientSummary) :
    ValidationResult :=
  let cf := pyLower c.followUp
  let pf := pyLower p.followUp
  let ct := extract_timing_strict cf
  let pt := extract_timing_strict pf
  let ccond := extract_conditions_strict cf
  let pcond := extract_conditions_strict pf
  let issues :=
    (if ct ≠ pt then
       ["Follow-up timing differs: '" ++ ct ++ "' vs '" ++ pt ++ "'"] else [])
    ++ (if ccond ≠ pcond then
          ["Follow-up conditions differ: '" ++ ccond ++ "' vs '" ++ pcond ++ "'"]
        else [])
    ++ (if 2 * (pySplitWs pf).length > 3 * (pySplitWs cf).length then
          ["Patient follow-up contains significantly more information than clinician version"]
        else [])
  { test_name := "followup_alignment_ultra_strict"
    passed := issues.isEmpty
    score := penaltyScore issues (3/10)
    issues := issues }

/-! ## Plan-instructions alignment -/

/-- extract_phrases: consecutive word pairs of the lower-cased text, joined by a
    space, kept when longer than 5 characters (a Python set). -/
def extract_phrases (text : String) : Finset String :=
  let ws := pySplitWs (pyLower text)
  (((ws.zip ws.tail).map fun pr => pr.1 ++ " " ++ pr.2).filter
    fun ph => ph.length > 5).toFinset

/-- Jaccard ratio card(a ∩ b) / card(a ∪ b), 0 for two empty sets (the source's
    `if union else 0.0` guard). -/
def jaccard (a b : Finset String) : ℚ :=
  if (a ∪ b) = ∅ then 0 else ((a ∩ b).card : ℚ) / ((a ∪ b).card : ℚ)

/-- UltraEnhancedSummaryTester.calculate_semantic_similarity_advanced:
    0 for an empty text or empty word set, otherwise word Jaccard * 0.6 +
    phrase Jaccard * 0.4. -/
def calculate_semantic_similarity_advanced (t1 t2 : String) : ℚ :=
  if t1 = "" ∨ t2 = "" then 0
  else
    let w1 := (pySplitWs (pyLower t1)).toFinset
    let w2 := (pySplitWs (pyLower t2)).toFinset
    if w1 = ∅ ∨ w2 = ∅ then 0
    else jaccard w1 w2 * (3/5) + jaccard (extract_phrases t1) (extract_phrases t2) * (2/5)

/-- The action_words vocabulary of extract_actions. -/
def action_words : List String :=
  ["take", "rest", "drink", "call", "follow", "monitor", "avoid", "apply",
   "use", "continue", "stop", "start", "increase", "decrease", "check"]

/-- extract_actions: the set of action words among the lower-cased text's words. -/
def extract_actions (text : String) : Finset String :=
  ((pySplitWs (pyLower text)).filter fun w => action_words.contains w).toFinset

/-- The common_actions filtered out by detect_extra_steps_advanced. -/
def common_actions : Finset String :=
  (["take", "rest", "drink", "call", "follow", "monitor"] : List String).toFinset

/-- detect_extra_steps_advanced as the set of extra actions (the source turns it
    into a list in unspecified set order; only emptiness is consumed). -/
def detect_extra_steps_advanced (plan instructions : String) : Finset String :=
  (extract_actions instructions \ extract_actions plan) \ common_actions

/-- Scan of re.findall for numbered plan items: at a (maximal, nonempty) digit
    run followed by a dot, the group is everything after the following
    whitespace run up to the next dot or the end; the scan resumes at the
    group's end. -/
def planNumScan : Nat → List Char → List String
  | 0, _ => []
  | _ + 1, [] => []
  | fuel + 1, c :: cs =>
    let l := c :: cs
    let ds := l.takeWhile isDigitC
    if ds.isEmpty then planNumScan fuel cs
    else
      match l.drop ds.length with
      | '.' :: rest =>
        let rest2 := rest.dropWhile pyWs
        let g := rest2.takeWhile notDotC
        g.asString :: planNumScan fuel (rest2.drop g.length)
      | _ => planNumScan fuel cs

/-- Scan of re.findall for bullet plan items: at a bullet dot, the group is
    everything after the following whitespace run up to the next dot or end. -/
def planBulScan : Nat → List Char → List String
  | 0, _ => []
  | _ + 1, [] => []
  | fuel + 1, c :: cs =>
    if c = '•' then
      let rest2 := cs.dropWhile pyWs
      let g := rest2.takeWhile notDotC
      g.asString :: planBulScan fuel (rest2.drop g.length)
    else planBulScan fuel cs

/-- The verbs of the action-phrase pattern (no word boundaries in the source). -/
def plan_action_verbs : List String := ["take", "rest", "drink", "call", "follow", "monitor"]

/-- Scan of re.findall for action phrases: one of the verbs (no word boundary),
    at least one whitespace character, then everything up to a dot; when the
    whitespace is missing the scan advances one character. -/
def planActScan : Nat → List Char → List String
  | 0, _ => []
  | _ + 1, [] => []
  | fuel + 1, c :: cs =>
    let l := c :: cs
    match plan_action_verbs.findSome? (fun w =>
        if l.take w.data.length = w.data then some w.data else none) with
    | some nd =>
      let after := l.drop nd.length
      let wsRun := after.takeWhile pyWs
      if wsRun.isEmpty then planActScan fuel cs
      else
        let rest2 := after.drop wsRun.length
        let g := rest2.takeWhile notDotC
        (nd ++ wsRun ++ g).asString :: planActScan fuel (rest2.drop g.length)
    | none => planActScan fuel cs

/-- UltraEnhancedSummaryTester.extract_plan_items: numbered and bullet groups,
    stripped and lower-cased, plus action phrases found in the lower-cased text,
    stripped (a Python set). -/
def extract_plan_items (text : String) : Finset String :=
  let n := text.data.length + 1
  (((planNumScan n text.data).map fun s => pyLower (pyStrip s))
    ++ ((planBulScan n text.data).map fun s => pyLower (pyStrip s))
    ++ ((planActScan n (pyLower text).data).map pyStrip)).toFinset

/-- check_plan_coverage: one issue when some plan item is not covered by the
    instruction items (the message's set-repr interpolation is modelled by a
    fixed prefix). -/
def check_plan_coverage (plan instructions : String) : List String :=
  if (extract_plan_items plan \ extract_plan_items instructions) = ∅ then []
  else ["Plan items not covered in instructions"]

/-- Score shape of the plan-instructions check: the computed similarity when no
    issue was found, max(0.0, similarity - count * 0.1) otherwise. -/
def planScore (sim : ℚ) (issues : List String) : ℚ :=
  if issues.isEmpty then sim else max 0 (sim - issues.length * (1/10))

/-- UltraEnhancedSummaryTester.test_plan_instructions_alignment_ultra_strict.
    Unlike the other three checks, the score is the computed similarity when the
    check passes, and max(0.0, similarity - count * 0.1) otherwise. -/
def test_plan_instructions_alignment_ultra_strict
    (c : ClinicianSummary) (p : PatientSummary) : ValidationResult :=
  let sim := calculate_semantic_similarity_advanced c.plan p.instructions
  let issues :=
    (if sim < 4/5 then ["Plan-instructions similarity too low"] else [])
    ++ (if detect_extra_steps_advanced c.plan p.instructions = ∅ then []
        else ["Patient instructions contain extra steps"])
    ++ check_plan_coverage c.plan p.instructions
  { test_name := "plan_instructions_alignment_ultra_strict"
    passed := issues.isEmpty
    score := planScore sim issues
    issues := issues }

/-! ## Engine lemmas -/

/-- When a greedy class run is laid over characters all in the class, followed
    by a tail whose head is outside the class, a continuation succeeding on the
    tail makes the whole star succeed. -/
lemma starTries_isSome (p : Char → Bool) (ds : List Char)
    (hds : ∀ c ∈ ds, p c = true) (tail : List Char)
    (htail : ∀ c, tail.head? = some c → p c = false) (k : MCont)
    (hk : ∀ pos prev, (k pos prev tail).isSome = true) :
    ∀ pos prev, (starTries p pos prev (ds ++ tail) k).isSome = true := by
  induction ds with
  | nil =>
    intro pos prev
    cases tail with
    | nil => simpa [starTries] using hk pos prev
    | cons c cs =>
      have hc : p c = false := htail c rfl
      simpa [starTries, hc] using hk pos prev
  | cons d ds ih =>
    intro pos prev
    have hd : p d = true := hds d (by simp)
    have hin := ih (fun c hc => hds c (by simp [hc])) (pos + 1) (some d)
    rw [List.cons_append]
    rw [starTries, hd]
    simp only [if_true]
    obtain ⟨v, hv⟩ := Option.isSome_iff_exists.mp hin
    rw [hv]
    rfl

/-- A match attempt succeeding on a suffix makes the search over the whole text
    succeed. -/
lemma searchFrom_of_suffix (re : RE) (xs tail : List Char) (prev : Option Char)
    (h : ∀ pr, (tryHere re 0 pr tail).isSome = true) :
    searchFrom re prev (xs ++ tail) = true := by
  induction xs generalizing prev with
  | nil =>
    cases tail with
    | nil => simpa [searchFrom] using h prev
    | cons c cs => simp [searchFrom, h prev]
  | cons x xs ih =>
    rw [List.cons_append, searchFrom]
    simp [ih (some x)]

/-- Both anchor patterns have the shape class, optional S, digits, class; at a
    token laid out as opening character, optional S, digit run, closing
    character, a match attempt succeeds whatever precedes or follows. -/
lemma tryHere_anchor_shape (p1 pS pD p2 : Char → Bool) (o cl : Char)
    (withS : Bool) (ds : List Char) (prev : Option Char) (bs : List Char)
    (ho : p1 o = true) (hcl : p2 cl = true) (hS : pS 'S' = true)
    (hSd : ∀ c, pD c = true → pS c = false)
    (hne : ds ≠ []) (hds : ∀ c ∈ ds, pD c = true) (hcld : pD cl = false) :
    (tryHere (.seq (.cls p1) (.seq (.opt (.cls pS)) (.seq (.plus pD) (.cls p2))))
      0 prev (o :: ((if withS then ['S'] else []) ++ (ds ++ cl :: bs)))).isSome = true := by
  cases ds with
  | nil => exact absurd rfl hne
  | cons d ds2 =>
    have hd : pD d = true := hds d (by simp)
    have hstar : ∀ pos pr,
        (starTries pD pos pr (ds2 ++ cl :: bs)
          (fun pos2 _ rest2 =>
            match rest2 with
            | [] => none
            | c :: _ => if p2 c = true then some (pos2 + 1) else none)).isSome = true := by
      refine starTries_isSome pD ds2 (fun c hc => hds c (by simp [hc])) (cl :: bs)
        (fun c hc => ?_) _ ?_
      · have hcc : cl = c := by simpa using hc
        exact hcc ▸ hcld
      · intro pos2 prev2
        simp [hcl]
    cases withS with
    | true =>
      rw [tryHere]
      simp only [if_true, List.singleton_append, List.cons_append, List.nil_append,
        reM, ho, hS, hd, if_true]
      obtain ⟨v, hv⟩ := Option.isSome_iff_exists.mp (hstar _ (some d))
      rw [hv]
      rfl
    | false =>
      have hdS : pS d = false := hSd d hd
      rw [tryHere]
      simp only [Bool.false_eq_true, if_false, List.cons_append, List.nil_append,
        reM, ho, hS, hd, hdS, if_true]
      obtain ⟨v, hv⟩ := Option.isSome_iff_exists.mp (hstar _ (some d))
      rw [hv]
      rfl

/-- An anchor token: an opening character, an optional capital S, digit
    characters, a closing character. -/
def anchorToken (o : Char) (withS : Bool) (ds : List Char) (cl : Char) : String :=
  (o :: ((if withS then ['S'] else []) ++ ds ++ [cl])).asString

lemma anchorToken_split (a b : String) (o cl : Char) (withS : Bool) (ds : List Char) :
    (a ++ anchorToken o withS ds cl ++ b).data
      = a.data ++ (o :: ((if withS then ['S'] else []) ++ (ds ++ cl :: b.data))) := by
  simp only [String.data_append]
  show a.data ++ (o :: ((if withS then ['S'] else []) ++ ds ++ [cl])) ++ b.data = _
  simp [List.append_assoc]

/-- The anchor regex of tests/test_grounding.py accepts every such token with
    any pairing of the brackets, anywhere in the text. -/
lemma anchorReal_accepts (a b : String) (o cl : Char) (withS : Bool) (ds : List Char)
    (ho : o = '[' ∨ o = '(') (hcl : cl = ']' ∨ cl = ')')
    (hne : ds ≠ []) (hds : ∀ c ∈ ds, c.isDigit = true) :
    has_source_anchor_real (a ++ anchorToken o withS ds cl ++ b) = true := by
  unfold has_source_anchor_real reSearch
  rw [anchorToken_split]
  apply searchFrom_of_suffix
  intro pr
  have h := tryHere_anchor_shape (fun c => c = '[' || c = '(') (fun c => c = 'S')
    isDigitC (fun c => c = ']' || c = ')') o cl withS ds pr b.data
    (by rcases ho with h | h <;> simp [h]) (by rcases hcl with h | h <;> simp [h])
    (by simp)
    (fun c hc => by
      simp only [decide_eq_false_iff_not]
      intro he
      rw [he] at hc
      exact absurd hc (by decide))
    hne (fun c hc => by simpa [isDigitC] using hds c hc)
    (by rcases hcl with h | h <;> simp [h, isDigitC])
  simpa [anchorRealRE, seqs, chC] using h

/-- The anchor regex of test_direct_functions.py accepts square-bracketed
    tokens, with or without the S, anywhere in the text. -/
lemma anchorDirect_accepts (a b : String) (withS : Bool) (ds : List Char)
    (hne : ds ≠ []) (hds : ∀ c ∈ ds, c.isDigit = true) :
    has_source_anchor_direct (a ++ anchorToken '[' withS ds ']' ++ b) = true := by
  unfold has_source_anchor_direct reSearch
  rw [anchorToken_split]
  apply searchFrom_of_suffix
  intro pr
  have h := tryHere_anchor_shape (fun c => c = '[') (fun c => c = 'S')
    isDigitC (fun c => c = ']') '[' ']' withS ds pr b.data
    (by simp) (by simp) (by simp)
    (fun c hc => by
      simp only [decide_eq_false_iff_not]
      intro he
      rw [he] at hc
      exact absurd hc (by decide))
    hne (fun c hc => by simpa [isDigitC] using hds c hc)
    (by simp [isDigitC])
  simpa [anchorDirectRE, seqs, chC] using h

/-! ## Score-shape lemmas -/

lemma penaltyScore_eq_one_iff (l : List String) (k : ℚ) (hk : 0 < k) :
    penaltyScore l k = 1 ↔ l = [] := by
  unfold penaltyScore
  cases l with
  | nil => simp
  | cons x xs =>
    simp only [List.isEmpty_cons, Bool.false_eq_true, if_false]
    constructor
    · intro h
      exfalso
      have hn : (1 : ℚ) ≤ ((x :: xs).length : ℚ) := by
        have h1 : 1 ≤ (x :: xs).length := Nat.succ_le_succ (Nat.zero_le _)
        exact_mod_cast h1
      have hkn : k ≤ ((x :: xs).length : ℚ) * k := le_mul_of_one_le_left hk.le hn
      rcases max_choice 0 (1 - ((x :: xs).length : ℚ) * k) with hm | hm <;>
        rw [hm] at h <;> nlinarith
    · intro h
      cases h

lemma penaltyScore_bounds (l : List String) (k : ℚ) (hk : 0 ≤ k) :
    0 ≤ penaltyScore l k ∧ penaltyScore l k ≤ 1 := by
  unfold penaltyScore
  split
  · exact ⟨zero_le_one, le_refl 1⟩
  · refine ⟨le_max_left 0 _, max_le zero_le_one ?_⟩
    have h : 0 ≤ (l.length : ℚ) * k := by positivity
    linarith

lemma planScore_bounds (sim : ℚ) (issues : List String) (h0 : 0 ≤ sim) (h1 : sim ≤ 1) :
    0 ≤ planScore sim issues ∧ planScore sim issues ≤ 1 := by
  unfold planScore
  split
  · exact ⟨h0, h1⟩
  · refine ⟨le_max_left 0 _, max_le zero_le_one ?_⟩
    have h : 0 ≤ (issues.length : ℚ) * (1/10) := by positivity
    linarith

lemma jaccard_nonneg (a b : Finset String) : 0 ≤ jaccard a b := by
  unfold jaccard
  split
  · exact le_refl 0
  · positivity

lemma jaccard_le_one (a b : Finset String) : jaccard a b ≤ 1 := by
  unfold jaccard
  split
  · exact zero_le_one
  · rename_i h
    have hpos : 0 < ((a ∪ b).card : ℚ) := by
      exact_mod_cast Finset.card_pos.mpr (Finset.nonempty_iff_ne_empty.mpr h)
    rw [div_le_one hpos]
    exact_mod_cast Finset.card_le_card Finset.inter_subset_union

lemma similarity_bounds (t1 t2 : String) :
    0 ≤ calculate_semantic_similarity_advanced t1 t2 ∧
      calculate_semantic_similarity_advanced t1 t2 ≤ 1 := by
  unfold calculate_semantic_similarity_advanced
  split
  · exact ⟨le_refl 0, zero_le_one⟩
  · simp only []
    split
    · exact ⟨le_refl 0, zero_le_one⟩
    · constructor
      · have h1 := jaccard_nonneg ((pySplitWs (pyLower t1)).toFinset)
          ((pySplitWs (pyLower t2)).toFinset)
        have h2 := jaccard_nonneg (extract_phrases t1) (extract_phrases t2)
        nlinarith
      · have h1 := jaccard_le_one ((pySplitWs (pyLower t1)).toFinset)
          ((pySplitWs (pyLower t2)).toFinset)
        have h2 := jaccard_le_one (extract_phrases t1) (extract_phrases t2)
        have h3 := jaccard_nonneg ((pySplitWs (pyLower t1)).toFinset)
          ((pySplitWs (pyLower t2)).toFinset)
        have h4 := jaccard_nonneg (extract_phrases t1) (extract_phrases t2)
        nlinarith

/-! ## Claim theorems -/

/-- C1 (amended, against the spec-modelled Redactor): none of the eight
    placeholder tokens re-matches any PHI pattern — a second detection pass over
    a placeholder alone finds nothing — though redaction is not a fixed point on
    every input (see the counterexample: residual digits abutting a placeholder
    boundary can form a fresh match). -/
theorem C1_placeholders_rematch_nothing :
    phi_priority.map (fun t => detect_phi (placeholder t)) =
      [[], [], [], [], [], [], [], []] := by decide

/-- C1 counterexample: for x = "555123456712345" the phone recognizer consumes
    only the first ten digits; redaction yields "[REDACTED_PHONE]12345", whose
    closing bracket creates a word boundary before the residual five digits, so
    a second pass detects a ZIP-code match: the match list of the second pass is
    not empty and the redacted text is not a fixed point. -/
theorem C1_counterexample :
    (redact (redact "555123456712345").redactedText).phiMatches =
        [⟨"zip_code", "12345", 16, 21⟩] ∧
      (redact (redact "555123456712345").redactedText).redactedText =
        "[REDACTED_PHONE][REDACTED_ZIP_CODE]" ∧
      (redact (redact "555123456712345").redactedText).redactedText ≠
        (redact "555123456712345").redactedText := by decide

/-- C2 (amended): over strings the detector is total — every string yields a
    result list, the empty string and PHI-free text yield the empty list — but a
    None input is not returned as an empty list: re.finditer raises TypeError on
    it (see the counterexample). -/
theorem C2_detect_total_on_strings :
    (∀ s : String, ∃ l, detect_phi_checked (some s) = .ok l) ∧
      detect_phi_checked (some "") = .ok [] ∧
      detect_phi_checked (some "no identifying information here") = .ok [] := by
  refine ⟨fun s => ⟨detect_phi s, rfl⟩, by rfl, by rfl⟩

/-- C2 counterexample: the None input raises instead of producing the empty
    list. -/
theorem C2_counterexample :
    detect_phi_checked none =
      .error "TypeError: expected string or bytes-like object" := rfl

/-- C3 (amended): a nine-digit SSN-formatted run, dashed or bare, is reported
    only under the ssn category — no other recognizer fires on it — though this
    comes from the shapes of the individual patterns, not from any cross-category
    overlap resolution (see the counterexample). -/
theorem C3_ssn_run_only_ssn :
    detect_phi "123-45-6789" = [⟨"ssn", "123-45-6789", 0, 11⟩] ∧
      detect_phi "123456789" = [⟨"ssn", "123456789", 0, 9⟩] := by decide

/-- C3 counterexample: the detector has no overlap-priority resolution — on a
    sixteen-digit card number it reports BOTH an overlapping phone match (the
    first ten digits) and the credit-card match, where the claimed priority
    order would keep only credit_card. -/
theorem C3_counterexample :
    detect_phi "4111111111111111" =
        [⟨"phone", "4111111111", 0, 10⟩,
         ⟨"credit_card", "4111111111111111", 0, 16⟩] ∧
      overlapsM ⟨"phone", "4111111111", 0, 10⟩
        ⟨"credit_card", "4111111111111111", 0, 16⟩ = true := by decide

/-- A field rendered as four bulleted statements of which exactly two carry
    square-bracket anchors. -/
def mixedBulletContent : String :=
  "- Patient reports headache [S1]\n- Fever since morning\n- Prescribed acetaminophen [S2]\n- Rest recommended"

/-- C4 (amended): the validator of test_direct_functions.py counts each bulleted
    statement separately and requires each to carry its own anchor — on a field
    with half its four bullets anchored it reports groundedBullets =
    totalBullets / 2 and isValid = false — whereas the validator of
    tests/test_grounding.py treats the same field as a single prose unit
    (totalBullets = 1, grounded iff an anchor occurs anywhere) and accepts it. -/
theorem C4_half_grounded_field :
    validate_section_direct "plan" mixedBulletContent =
        ⟨"plan", 4, 2, ["Fever since morning", "Rest recommended"], false⟩ ∧
      (validate_section_direct "plan" mixedBulletContent).grounded_bullets =
        (validate_section_direct "plan" mixedBulletContent).total_bullets / 2 ∧
      validate_section_real "plan" mixedBulletContent = ⟨"plan", 1, 1, [], true⟩ := by
  decide

/-- C4 counterexample: on the half-anchored bulleted field the
    tests/test_grounding.py validator reports one grounded statement out of one
    and isValid = true, not groundedBullets = totalBullets / 2 with
    isValid = false. -/
theorem C4_counterexample :
    (validate_section_real "plan" mixedBulletContent).is_valid = true ∧
      (validate_section_real "plan" mixedBulletContent).grounded_bullets ≠
        (validate_section_real "plan" mixedBulletContent).total_bullets / 2 := by
  decide

/-- C9: the false-positive guard — a bare number after the word address with no
    street-type token is never reported as an address: both spec fixtures yield
    no match at all, while a genuine street address is still reported. -/
theorem C9_address_false_positive_guard :
    detect_phi "Address: 5 days" = [] ∧
      detect_phi "Address: 5 if symptoms persist" = [] ∧
      detect_phi "Address: 123 Main Street" =
        [⟨"address", "123 Main Street", 9, 24⟩] := by decide

/-- C5 (amended): the certainty-alignment flag fires exactly when the clinician
    level is not Confirmed and the patient text contains a Chinese
    confirmed-tier token, or the clinician level is Possible and the patient
    level is Confirmed — not whenever the patient level strictly exceeds the
    clinician level (see the counterexample) — and on the claim's example
    (clinician "possible viral infection", patient "You have been confirmed with
    a viral infection") the diagnosis check returns passed = false with the
    certainty-escalation issue and score 0.75. -/
theorem C5_certainty_flag :
    (∀ c p : String,
      (validate_certainty_alignment c p).1 = false ↔
        ((detect_certainty_level c ≠ CertaintyLevel.confirmed ∧
            reSearch patientConfirmedRE p = true) ∨
          (detect_certainty_level c = CertaintyLevel.possible ∧
            detect_certainty_level p = CertaintyLevel.confirmed))) ∧
    test_diagnosis_alignment_ultra_strict
        { assessment := "possible viral infection" }
        { diagnosis := "You have been confirmed with a viral infection" } =
      ⟨"diagnosis_alignment_ultra_strict", false, 3/4,
        ["Patient uses confirmed language when clinician only suggests possibility"]⟩ := by
  constructor
  · intro c p
    unfold validate_certainty_alignment
    by_cases h1 : detect_certainty_level c = CertaintyLevel.confirmed
    · simp [h1]
    · by_cases h2 : reSearch patientConfirmedRE p = true
      · simp [h1, h2]
      · by_cases h3 : detect_certainty_level c = CertaintyLevel.possible ∧
            detect_certainty_level p = CertaintyLevel.confirmed
        · simp [h1, h2, h3]
        · simp [h1, h2, h3]
  · set X := test_diagnosis_alignment_ultra_strict
      { assessment := "possible viral infection" }
      { diagnosis := "You have been confirmed with a viral infection" } with hX
    have hI : X.issues =
        ["Patient uses confirmed language when clinician only suggests possibility"] := by
      rw [hX]; decide
    have hS : X.score = 3/4 := by
      have h1 : X.score = penaltyScore X.issues (1/4) := rfl
      rw [h1, hI]
      norm_num [penaltyScore, max_def]
    have hEta : X = ⟨X.test_name, X.passed, X.score, X.issues⟩ := rfl
    rw [hEta, hS, hI]
    have hN : X.test_name = "diagnosis_alignment_ultra_strict" := rfl
    have hP : X.passed = false := by rw [hX]; decide
    rw [hN, hP]

/-- C5 counterexample: clinician "likely viral infection" against patient
    "confirmed viral infection" — the patient certainty level (Confirmed)
    strictly exceeds the clinician level (Likely) on the spec's scale, yet the
    alignment check reports no issue. -/
theorem C5_counterexample :
    validate_certainty_alignment "likely viral infection"
        "confirmed viral infection" = (true, []) ∧
      detect_certainty_level "likely viral infection" = CertaintyLevel.likely ∧
      detect_certainty_level "confirmed viral infection" = CertaintyLevel.confirmed := by
  decide

/-- C6: on the claim's example the medication check passes with score exactly
    1.0; the brand names tylenol, paracetamol and panadol all normalize to the
    generic acetaminophen; and the per-pair dose check raises an issue exactly
    when both doses are present and different. -/
theorem C6_medication_alignment :
    test_medication_alignment_ultra_strict
        { medications := "acetaminophen 500mg q6h" }
        { medications := "Tylenol 500mg every 6 hours" } =
      ⟨"medication_alignment_ultra_strict", true, 1, []⟩ ∧
      normalize_medication_name "Tylenol" = "acetaminophen" ∧
      normalize_medication_name "paracetamol" = "acetaminophen" ∧
      normalize_medication_name "panadol" = "acetaminophen" ∧
      (∀ cm pm : MedInfo, ∀ i : Nat,
        doseIssues i [(cm, pm)] = [] ↔
          (cm.dose = "" ∨ pm.dose = "" ∨ cm.dose = pm.dose)) := by
  refine ⟨by decide, by decide, by decide, by decide, ?_⟩
  intro cm pm i
  simp only [doseIssues, List.append_nil]
  split
  · rename_i h
    simp [h.1, h.2.1, h.2.2]
  · rename_i h
    simp only [List.nil_eq, true_iff]
    by_contra hc
    push_neg at hc
    exact h ⟨hc.1, hc.2.1, hc.2.2⟩

/-- C7 (amended): the tests/test_grounding.py validator counts a statement as
    grounded for every one of the four token forms [S n], (S n), [n], (n); the
    test_direct_functions.py validator accepts only the square-bracket forms
    [S n] and [n] (see the counterexample for its rejection of (S n)). -/
theorem C7_anchor_styles :
    ∀ a b : String, ∀ ds : List Char, ds ≠ [] → (∀ c ∈ ds, c.isDigit = true) →
      has_source_anchor_real (a ++ anchorToken '[' true ds ']' ++ b) = true ∧
      has_source_anchor_real (a ++ anchorToken '(' true ds ')' ++ b) = true ∧
      has_source_anchor_real (a ++ anchorToken '[' false ds ']' ++ b) = true ∧
      has_source_anchor_real (a ++ anchorToken '(' false ds ')' ++ b) = true ∧
      has_source_anchor_direct (a ++ anchorToken '[' true ds ']' ++ b) = true ∧
      has_source_anchor_direct (a ++ anchorToken '[' false ds ']' ++ b) = true := by
  intro a b ds hne hds
  exact ⟨anchorReal_accepts a b '[' ']' true ds (Or.inl rfl) (Or.inl rfl) hne hds,
    anchorReal_accepts a b '(' ')' true ds (Or.inr rfl) (Or.inr rfl) hne hds,
    anchorReal_accepts a b '[' ']' false ds (Or.inl rfl) (Or.inl rfl) hne hds,
    anchorReal_accepts a b '(' ')' false ds (Or.inr rfl) (Or.inr rfl) hne hds,
    anchorDirect_accepts a b true ds hne hds,
    anchorDirect_accepts a b false ds hne hds⟩

/-- C7 witness: the token forms instantiated with the digit 1 inside a concrete
    statement. -/
theorem C7_witness :
    has_source_anchor_real ("statement " ++ anchorToken '[' true ['1'] ']' ++ " tail") = true ∧
      has_source_anchor_real ("statement " ++ anchorToken '(' true ['1'] ')' ++ " tail") = true ∧
      has_source_anchor_real ("statement " ++ anchorToken '[' false ['1'] ']' ++ " tail") = true ∧
      has_source_anchor_real ("statement " ++ anchorToken '(' false ['1'] ')' ++ " tail") = true ∧
      has_source_anchor_direct ("statement " ++ anchorToken '[' true ['1'] ']' ++ " tail") = true ∧
      has_source_anchor_direct ("statement " ++ anchorToken '[' false ['1'] ']' ++ " tail") = true :=
  C7_anchor_styles "statement " " tail" ['1'] (by decide) (by decide)

/-- C7 counterexample: the test_direct_functions.py validator does not accept
    the round-bracket style — a statement whose only anchor is (S1) is reported
    ungrounded. -/
theorem C7_counterexample :
    has_source_anchor_direct "(S1)" = false ∧
      validate_section_direct "plan" "- take medication (S1)" =
        ⟨"plan", 1, 0, ["take medication (S1)"], false⟩ := by decide

/-- C8 (amended): the medication, follow-up and diagnosis checks score exactly
    1 precisely when they find no issues (and otherwise 1 minus 0.2, 0.3, 0.25
    per issue, floored at 0), and all four checks — the plan-instructions check
    included — return scores within [0, 1]; but the plan-instructions check
    bases its score on the computed similarity rather than on 1.0, so it can
    return a score below 1 with zero issues (see the counterexample), and its
    per-issue penalty is 0.1, outside the claimed 0.2–0.3 band. -/
theorem C8_score_shape :
    (∀ (c : ClinicianSummary) (p : PatientSummary),
      ((test_medication_alignment_ultra_strict c p).score = 1 ↔
          (test_medication_alignment_ultra_strict c p).issues = []) ∧
      ((test_followup_alignment_ultra_strict c p).score = 1 ↔
          (test_followup_alignment_ultra_strict c p).issues = []) ∧
      ((test_diagnosis_alignment_ultra_strict c p).score = 1 ↔
          (test_diagnosis_alignment_ultra_strict c p).issues = [])) ∧
    (∀ (c : ClinicianSummary) (p : PatientSummary),
      (0 ≤ (test_medication_alignment_ultra_strict c p).score ∧
        (test_medication_alignment_ultra_strict c p).score ≤ 1) ∧
      (0 ≤ (test_followup_alignment_ultra_strict c p).score ∧
        (test_followup_alignment_ultra_strict c p).score ≤ 1) ∧
      (0 ≤ (test_diagnosis_alignment_ultra_strict c p).score ∧
        (test_diagnosis_alignment_ultra_strict c p).score ≤ 1) ∧
      (0 ≤ (test_plan_instructions_alignment_ultra_strict c p).score ∧
        (test_plan_instructions_alignment_ultra_strict c p).score ≤ 1)) := by
  constructor
  · intro c p
    exact ⟨penaltyScore_eq_one_iff _ _ (by norm_num),
      penaltyScore_eq_one_iff _ _ (by norm_num),
      penaltyScore_eq_one_iff _ _ (by norm_num)⟩
  · intro c p
    refine ⟨penaltyScore_bounds _ _ (by norm_num),
      penaltyScore_bounds _ _ (by norm_num),
      penaltyScore_bounds _ _ (by norm_num), ?_⟩
    have hsim := similarity_bounds c.plan p.instructions
    exact planScore_bounds _ _ hsim.1 hsim.2

/-- C8 counterexample: a plan-instructions pair with identical word sets and
    three of five shared phrases — the check finds no issue, yet its score is
    the similarity 21/25 = 0.84, not 1.0. -/
theorem C8_counterexample :
    (test_plan_instructions_alignment_ultra_strict
        { plan := "alpha beta gamma delta omega" }
        { instructions := "omega alpha beta gamma delta" }).issues = [] ∧
      (test_plan_instructions_alignment_ultra_strict
        { plan := "alpha beta gamma delta omega" }
        { instructions := "omega alpha beta gamma delta" }).score = 21/25 ∧
      ((21 : ℚ)/25) ≠ 1 := by
  have hsim : calculate_semantic_similarity_advanced "alpha beta gamma delta omega"
      "omega alpha beta gamma delta" = 21/25 := by
    have hw : jaccard (pySplitWs (pyLower "alpha beta gamma delta omega")).toFinset
        (pySplitWs (pyLower "omega alpha beta gamma delta")).toFinset = 1 := by
      unfold jaccard
      rw [if_neg (by decide)]
      rw [show ((pySplitWs (pyLower "alpha beta gamma delta omega")).toFinset ∩
          (pySplitWs (pyLower "omega alpha beta gamma delta")).toFinset).card = 5 from by decide]
      rw [show ((pySplitWs (pyLower "alpha beta gamma delta omega")).toFinset ∪
          (pySplitWs (pyLower "omega alpha beta gamma delta")).toFinset).card = 5 from by decide]
      norm_num
    have hp : jaccard (extract_phrases "alpha beta gamma delta omega")
        (extract_phrases "omega alpha beta gamma delta") = 3/5 := by
      unfold jaccard
      rw [if_neg (by decide)]
      rw [show ((extract_phrases "alpha beta gamma delta omega") ∩
          (extract_phrases "omega alpha beta gamma delta")).card = 3 from by decide]
      rw [show ((extract_phrases "alpha beta gamma delta omega") ∪
          (extract_phrases "omega alpha beta gamma delta")).card = 5 from by decide]
      norm_num
    unfold calculate_semantic_similarity_advanced
    rw [if_neg (by decide)]
    simp only []
    rw [if_neg (by decide), hw, hp]
    norm_num
  have hI : (test_plan_instructions_alignment_ultra_strict
      { plan := "alpha beta gamma delta omega" }
      { instructions := "omega alpha beta gamma delta" }).issues = [] := by
    have hJ : (calculate_semantic_similarity_advanced "alpha beta gamma delta omega"
        "omega alpha beta gamma delta" < 4/5) = False := by
      rw [hsim]; norm_num
    show ((if calculate_semantic_similarity_advanced "alpha beta gamma delta omega"
        "omega alpha beta gamma delta" < 4/5 then
        ["Plan-instructions similarity too low"] else [])
      ++ _ ++ _) = []
    rw [if_neg (by rw [hsim]; norm_num)]
    decide
  refine ⟨hI, ?_, by norm_num⟩
  have h1 : (test_plan_instructions_alignment_ultra_strict
      { plan := "alpha beta gamma delta omega" }
      { instructions := "omega alpha beta gamma delta" }).score =
      planScore (calculate_semantic_similarity_advanced "alpha beta gamma delta omega"
        "omega alpha beta gamma delta")
        (test_plan_instructions_alignment_ultra_strict
          { plan := "alpha beta gamma delta omega" }
          { instructions := "omega alpha beta gamma delta" }).issues := rfl
  rw [h1, hI, hsim]
  rfl

/-- C10: the tests/test_grounding.py anchor regex chooses its opening and
    closing bracket independently — any of the four pairings, with or without
    the S prefix, over any digit run, anywhere in the text, counts as a valid
    citation anchor, mismatched pairs such as [S1) or (S2] and bare bracketed
    numbers such as [1] included. -/
theorem C10_bracket_styles_pair_independently :
    ∀ a b : String, ∀ ds : List Char, ds ≠ [] → (∀ c ∈ ds, c.isDigit = true) →
      ∀ o ∈ (['[', '('] : List Char), ∀ cl ∈ ([']', ')'] : List Char),
        ∀ withS : Bool,
          has_source_anchor_real (a ++ anchorToken o withS ds cl ++ b) = true := by
  intro a b ds hne hds o ho cl hcl withS
  refine anchorReal_accepts a b o cl withS ds ?_ ?_ hne hds
  · simpa using ho
  · simpa using hcl

/-- C10 witness: the mismatched token [S1) inside a concrete statement. -/
theorem C10_witness :
    has_source_anchor_real ("claim " ++ anchorToken '[' true ['1'] ')' ++ " text") = true :=
  C10_bracket_styles_pair_independently "claim " " text" ['1'] (by decide)
    (by decide) '[' (by decide) ')' (by decide) true

end HealthJourney
